import Mathlib

/-!
# Verification of the voltage spike monitor core

A shallow embedding of the cyclic feed reader (`app.py`) and the alert
notifier (`telegram_notifier.py`) of the `enerjisa` repository, with
theorems settling the spec's claims about them.

Modelling conventions:
* Python floats are modelled as rationals (`ℚ`).
* The wall clock (`datetime.now()`) is injected as an explicit `now : ℚ`
  argument (seconds), per the spec's substitutable-clock requirement; the
  display timestamp of a message stores this number rather than a
  formatted date string.
* The network delivery (`bot.send_message`) either succeeds or raises; it
  is injected as a boolean `delivery_ok` argument.
* `random.uniform(a, b)` is injected as an argument constrained by
  `a ≤ r ≤ b` in the theorems.
* Python exceptions escaping a function are modelled with `Except`;
  functions that catch every exception internally are total.
-/

/-- One record of the feed: `{'timestamp': ..., 'current': ..., 'voltage': ...}`
as built by `load_csv_data`. -/
structure Reading where
  timestamp : String
  current : ℚ
  voltage : ℚ
deriving Repr, DecidableEq

/-- One parsed CSV row: the `Timestamp` column and the `Current (A)` column
(already converted from string by `float(...)`). -/
structure CsvRow where
  timestampCol : String
  currentCol : ℚ
deriving Repr, DecidableEq

/-- The body of the row loop of `load_csv_data`:
`voltage = 220 + (current * 100)`. -/
def rowToReading (row : CsvRow) : Reading :=
  { timestamp := row.timestampCol
    current := row.currentCol
    voltage := 220 + row.currentCol * 100 }

/-- The module-level feed state of `app.py`: the globals `csv_data` and
`current_data_index`. -/
structure FeedState where
  csv_data : List Reading
  current_data_index : ℕ
deriving Repr, DecidableEq

/-- `load_csv_data`: the source is the outcome of opening and parsing
`dc_current_log.csv` (`.ok rows` when the file opens and every row parses,
`.error e` when any step raises).  On success `csv_data` becomes the
converted rows; the `except` clause turns any failure into `csv_data = []`
(discarding rows appended before the failure) and a printed diagnostic.
The function itself never raises, and it never assigns
`current_data_index`. -/
def load_csv_data (source : Except String (List CsvRow)) (st : FeedState) :
    FeedState :=
  match source with
  | .ok rows => { st with csv_data := rows.map rowToReading }
  | .error _ => { st with csv_data := [] }

/-- `get_next_data_point`: returns `None` on an empty `csv_data` without
touching the cursor; otherwise indexes `csv_data[current_data_index]`
(raising `IndexError`, modelled as `.error`, if the index is out of range)
and advances the cursor modulo the length. -/
def get_next_data_point (st : FeedState) :
    Except String (Option Reading × FeedState) :=
  if st.csv_data.isEmpty then
    .ok (none, st)
  else
    match st.csv_data[st.current_data_index]? with
    | none => .error "IndexError"
    | some data_point =>
        .ok (some data_point,
          { st with
              current_data_index :=
                (st.current_data_index + 1) % st.csv_data.length })

/-- The feed state after `n` successive calls of `get_next_data_point`
(propagating any `IndexError`). -/
def feedStateAfter : ℕ → FeedState → Except String FeedState
  | 0, st => .ok st
  | n + 1, st =>
      match get_next_data_point st with
      | .ok (_, st1) => feedStateAfter n st1
      | .error e => .error e

/-- The reading returned by the `n`-th call (1-indexed) of
`get_next_data_point` in a run of successive calls. -/
def readingAtCall (n : ℕ) (st : FeedState) : Except String (Option Reading) :=
  match feedStateAfter (n - 1) st with
  | .ok st1 =>
      match get_next_data_point st1 with
      | .ok (r, _) => .ok r
      | .error e => .error e
  | .error e => .error e

/-- Zero-padding of `strftime` fields. -/
def pad2 (n : ℕ) : String :=
  if n < 10 then "0" ++ toString n else toString n

/-- `datetime.now().strftime('%H:%M:%S')` for an injected wall-clock
reading `h:m:s`. -/
def strftimeHMS (h m s : ℕ) : String :=
  pad2 h ++ ":" ++ pad2 m ++ ":" ++ pad2 s

/-- The JSON payload produced by the `/api/voltage-data` route. -/
structure VoltagePoint where
  timestamp : String
  voltage : ℚ
  current : ℚ
  success : Bool
deriving Repr, DecidableEq

/-- `get_voltage_data` (route `/api/voltage-data`): serves the next CSV
data point; when `get_next_data_point` returns `None` (empty feed) it
falls back to a simulated reading built from the wall clock `nowHMS` and
the two `random.uniform` draws `r1 ∈ [-10, 10]` and `r2 ∈ [0, 0.5]`. -/
def get_voltage_data (st : FeedState) (nowHMS : String) (r1 r2 : ℚ) :
    Except String (VoltagePoint × FeedState) := do
  let (dp?, st1) ← get_next_data_point st
  match dp? with
  | some data_point =>
      .ok ({ timestamp := data_point.timestamp
             voltage := data_point.voltage
             current := data_point.current
             success := true }, st1)
  | none =>
      .ok ({ timestamp := nowHMS
             voltage := 220 + r1
             current := r2
             success := true }, st1)

/-- The slice `csv_data[-n:] if len(csv_data) > n else csv_data` used by
`get_csv_data`, generalised over the hard-coded `n = 100`.  The route
reads `csv_data` only, so the state passes through unchanged. -/
def recent (n : ℕ) (st : FeedState) : List Reading × FeedState :=
  let recent_data :=
    if st.csv_data.length > n then
      st.csv_data.drop (st.csv_data.length - n)
    else
      st.csv_data
  (recent_data, st)

/-- `get_csv_data` (route `/api/csv-data`): returns the last 100 data
points for chart initialisation. -/
def get_csv_data (st : FeedState) : List Reading × FeedState :=
  recent 100 st

/-- The notifier state: `last_alert_time` (initially `None`) and the fixed
`alert_cooldown` (300 seconds in the constructor). -/
structure AlertState where
  last_alert_time : Option ℚ
  alert_cooldown : ℚ
deriving Repr, DecidableEq

/-- The state `VoltageSpikeNotifier.__init__` sets up. -/
def initAlertState : AlertState :=
  { last_alert_time := none, alert_cooldown := 300 }

/-- The structured content of the alert text built by
`send_voltage_spike_alert`: the severity motif (`emoji`, `color`), the
`**Severity:**` line's value (the `severity` argument verbatim), the
voltage, the area, the wall-clock time, and the appended additional
key-value pairs.  The literal string is a fixed function of these
fields. -/
structure AlertMessage where
  emoji : String
  color : String
  severity : String
  voltage : ℚ
  area : String
  time : ℚ
  additional_info : List (String × String)
deriving Repr, DecidableEq

/-- The `severity_config` lookup table of `send_voltage_spike_alert`:
severity → (emoji, color). -/
def severity_config : List (String × String × String) :=
  [("LOW", ("⚠️", "🟡")),
   ("MEDIUM", ("⚡", "🟠")),
   ("HIGH", ("🚨", "🔴")),
   ("CRITICAL", ("💥", "🔴"))]

/-- `severity_config.get(severity, severity_config["HIGH"])`. -/
def severity_config_get (severity : String) : String × String :=
  match severity_config.lookup severity with
  | some c => c
  | none => ("🚨", "🔴")

/-- What one call of `send_voltage_spike_alert` did: the returned boolean,
the message it built (`none` when suppressed by the cooldown), and whether
`bot.send_message` was reached. -/
structure SendOutcome where
  result : Bool
  message : Option AlertMessage
  delivery_attempted : Bool
deriving Repr, DecidableEq

/-- The part of `send_voltage_spike_alert` past the cooldown gate: build
the message from the severity motif, then attempt delivery.  On success
`last_alert_time` is assigned `now`; a raised transport error is caught
and `False` returned, with `last_alert_time` untouched (the assignment
sits after the `await` inside the `try`). -/
def send_voltage_spike_alert_body (st : AlertState) (now : ℚ)
    (delivery_ok : Bool) (voltage : ℚ) (area severity : String)
    (additional_info : List (String × String)) :
    SendOutcome × AlertState :=
  let config := severity_config_get severity
  let message : AlertMessage :=
    { emoji := config.1
      color := config.2
      severity := severity
      voltage := voltage
      area := area
      time := now
      additional_info := additional_info }
  if delivery_ok then
    ({ result := true, message := some message, delivery_attempted := true },
     { st with last_alert_time := some now })
  else
    ({ result := false, message := some message, delivery_attempted := true },
     st)

/-- `VoltageSpikeNotifier.send_voltage_spike_alert`.  The cooldown gate:
with `last_alert_time` set and `now - last_alert_time < alert_cooldown`
the call returns `False` at once.  Otherwise the message is built and
`bot.send_message` is awaited: on success (`delivery_ok = true`)
`last_alert_time` is assigned `now` and `True` returned; on a raised
transport error the `except` clause returns `False` *without* reaching the
`last_alert_time` assignment. -/
def send_voltage_spike_alert (st : AlertState) (now : ℚ)
    (delivery_ok : Bool) (voltage : ℚ)
    (area : String := "Unknown Area") (severity : String := "HIGH")
    (additional_info : List (String × String) := []) :
    SendOutcome × AlertState :=
  match st.last_alert_time with
  | some last =>
      if now - last < st.alert_cooldown then
        ({ result := false, message := none, delivery_attempted := false }, st)
      else
        send_voltage_spike_alert_body st now delivery_ok voltage area
          severity additional_info
  | none =>
      send_voltage_spike_alert_body st now delivery_ok voltage area
        severity additional_info

/-- `/api/telegram-alert`'s HTTP reply: the JSON body plus the status
code (Flask defaults to 200; the `except` branch replies 500). -/
structure HttpResponse where
  success : Bool
  message : String
  status : ℕ
deriving Repr, DecidableEq

/-- The severity classification inside `WebhookHandler.handle_voltage_data`. -/
def classify_severity (voltage : ℚ) : String :=
  if voltage ≥ 300 then "CRITICAL"
  else if voltage ≥ 280 then "HIGH"
  else if voltage ≥ 260 then "MEDIUM"
  else "LOW"

/-- `WebhookHandler.handle_voltage_data`: classifies the severity from the
voltage and, when `voltage > 234`, forwards the event to
`send_voltage_spike_alert` with the `Timestamp`/`Threshold` extras.  The
returned boolean records whether the notifier's send was invoked. -/
def handle_voltage_data (st : AlertState) (now : ℚ) (delivery_ok : Bool)
    (voltage : ℚ) (area timestamp : String) : Bool × AlertState :=
  let severity := classify_severity voltage
  if voltage > 234 then
    let r := send_voltage_spike_alert st now delivery_ok voltage area severity
      [("Timestamp", timestamp), ("Threshold", "234V")]
    (true, r.2)
  else
    (false, st)

/-- A parsed JSON value, as `request.get_json()` hands it to
`telegram_alert`. -/
inductive Json where
  | null
  | bool (b : Bool)
  | num (q : ℚ)
  | str (s : String)
  | arr (elems : List Json)
  | obj (fields : List (String × Json))
deriving Repr

/-- `telegram_alert` (route `/api/telegram-alert`, POST): reads the fields
with `data.get(..., default)`, prints a simulated alert to the console,
and replies with the hard-coded `success = True` body.  `data.get` exists
only when the parsed JSON is an object; on any other value (`None`, a
list, a number, ...) the attribute access raises, the `except` clause
catches it and replies 500.  No path invokes the notifier or touches
`AlertState`, so the notifier state passes through unchanged; the last
component records whether the notifier's send was invoked (never). -/
def telegram_alert (body : Json) (st : AlertState) :
    HttpResponse × AlertState × Bool :=
  match body with
  | .obj fields =>
      let _voltage := (fields.lookup "voltage").getD (.num 0)
      let _area := (fields.lookup "area").getD (.str "Unknown Area")
      let _severity := (fields.lookup "severity").getD (.str "MEDIUM")
      ({ success := true, message := "Alert sent successfully", status := 200 },
       st, false)
  | _ =>
      ({ success := false, message := "Error sending alert", status := 500 },
       st, false)

/-! ## Helper lemmas -/

/-- In the Cooling state the gate returns the suppressed outcome and the
state untouched. -/
theorem send_suppressed (st : AlertState) (now : ℚ) (d : Bool) (v : ℚ)
    (a s : String) (ai : List (String × String)) (t : ℚ)
    (hl : st.last_alert_time = some t) (hc : now - t < st.alert_cooldown) :
    send_voltage_spike_alert st now d v a s ai =
      ({ result := false, message := none, delivery_attempted := false }, st) := by
  unfold send_voltage_spike_alert
  rw [hl]
  simp [hc]

/-- A call that reached the delivery attempt behaves as the post-gate
body. -/
theorem send_attempted_cases (st : AlertState) (now : ℚ) (d : Bool) (v : ℚ)
    (a s : String) (ai : List (String × String))
    (hatt : (send_voltage_spike_alert st now d v a s ai).1.delivery_attempted = true) :
    send_voltage_spike_alert st now d v a s ai =
      send_voltage_spike_alert_body st now d v a s ai := by
  unfold send_voltage_spike_alert at hatt ⊢
  cases hl : st.last_alert_time with
  | none => rfl
  | some t =>
      rw [hl] at hatt
      by_cases h : now - t < st.alert_cooldown
      · simp [h] at hatt
      · simp [h]

/-- The post-gate body in one equation: message always built, delivery
always attempted, the clock advanced exactly when delivery succeeded. -/
theorem send_body_spec (st : AlertState) (now : ℚ) (d : Bool) (v : ℚ)
    (a s : String) (ai : List (String × String)) :
    send_voltage_spike_alert_body st now d v a s ai =
      ({ result := d,
         message := some
           { emoji := (severity_config_get s).1
             color := (severity_config_get s).2
             severity := s
             voltage := v
             area := a
             time := now
             additional_info := ai }
         delivery_attempted := true },
       if d then { st with last_alert_time := some now } else st) := by
  cases d <;> rfl

/-! ## Claims -/

/-- C5 counterexample: `load_csv_data` does not reset the cursor — loading
one well-formed row into a state whose cursor is 5 leaves the cursor at 5,
not 0. -/
theorem C5_load_cursor_counterexample :
    (load_csv_data (.ok [⟨"t", 1⟩]) ⟨[], 5⟩).current_data_index ≠ 0 := by
  decide

/-- C5 (amended): for every source (well-formed or malformed), `load`
leaves the feed cursor exactly as it was; it equals 0 after the call only
because the one call at process start happens while the cursor still holds
its initial value 0. -/
theorem C5_load_preserves_cursor (source : Except String (List CsvRow))
    (st : FeedState) :
    (load_csv_data source st).current_data_index = st.current_data_index := by
  cases source <;> rfl

/-- C8: a malformed source (missing file or parse failure, modelled as the
`.error` outcome of opening/parsing) is absorbed: `load_csv_data` is a
total function (it raises nothing), the backing sequence comes out empty,
and the rest of the state is untouched. -/
theorem C8_malformed_source_absorbed (e : String) (st : FeedState) :
    (load_csv_data (.error e) st).csv_data = [] ∧
    (load_csv_data (.error e) st).current_data_index = st.current_data_index :=
  ⟨rfl, rfl⟩

/-- C9: `recent n` returns exactly `min n L` readings, they form a suffix
of the sequence (the last `min n L` readings in original order), the feed
state — in particular the cursor — is unchanged, a subsequent
`get_next_data_point` behaves exactly as before the call, and the route's
`get_csv_data` is `recent` at the hard-coded 100. -/
theorem C9_recent_spec (n : ℕ) (st : FeedState) :
    (recent n st).1.length = min n st.csv_data.length ∧
    (recent n st).1 <:+ st.csv_data ∧
    (recent n st).2 = st ∧
    get_next_data_point (recent n st).2 = get_next_data_point st ∧
    get_csv_data st = recent 100 st := by
  refine ⟨?_, ?_, rfl, rfl, rfl⟩
  · by_cases h : st.csv_data.length > n <;>
      simp [recent, h, List.length_drop] <;> omega
  · by_cases h : st.csv_data.length > n <;>
      simp [recent, h, List.drop_suffix]

/-- C10 counterexample: the body `null` parses as JSON, yet the endpoint
answers with the 500 error reply (`data.get` raises on `None`), not with
`success = true` and `Alert sent successfully`. -/
theorem C10_json_body_counterexample :
    (telegram_alert Json.null initAlertState).1 =
      { success := false, message := "Error sending alert", status := 500 } ∧
    (telegram_alert Json.null initAlertState).1.success ≠ true := by
  exact ⟨rfl, by decide⟩

/-- C10 (amended): for every spike submission whose body parses as a JSON
*object*, the endpoint returns `success = true` with message
`Alert sent successfully` (status 200), never invokes the notifier's send,
performs no delivery attempt, and leaves the cooldown state unchanged —
delivery is simulated by console printing only. -/
theorem C10_alert_endpoint_simulated (fields : List (String × Json))
    (st : AlertState) :
    telegram_alert (.obj fields) st =
      ({ success := true, message := "Alert sent successfully", status := 200 },
       st, false) := rfl

/-- C1 counterexample: a send from the initial state (gate passed) whose
delivery fails leaves `last_alert_time` unset instead of advancing it to
`now = 10`, and a further send at `now = 20` — well within the 300 s
cooldown — is not suppressed: it attempts delivery again. -/
theorem C1_attempt_gating_counterexample :
    (send_voltage_spike_alert initAlertState 10 false 250 "A" "HIGH" []).1.delivery_attempted
      = true ∧
    (send_voltage_spike_alert initAlertState 10 false 250 "A" "HIGH" []).2.last_alert_time
      ≠ some 10 ∧
    (send_voltage_spike_alert
        (send_voltage_spike_alert initAlertState 10 false 250 "A" "HIGH" []).2
        20 false 250 "A" "HIGH" []).1.delivery_attempted = true := by
  refine ⟨rfl, by decide, rfl⟩

/-- C1 (amended): a send that passes the cooldown gate sets
`last_attempt_time` to the current time only when the delivery succeeds;
when the delivery fails it is left unchanged, so a further send within
`cooldown_duration` after a failed delivery is suppressed only if an
earlier successful attempt still keeps the window active. -/
theorem C1_clock_update_on_success (st : AlertState) (now : ℚ) (d : Bool)
    (v : ℚ) (a s : String) (ai : List (String × String))
    (hatt : (send_voltage_spike_alert st now d v a s ai).1.delivery_attempted = true) :
    (send_voltage_spike_alert st now d v a s ai).2.last_alert_time =
      if d then some now else st.last_alert_time := by
  rw [send_attempted_cases st now d v a s ai hatt, send_body_spec]
  cases d <;> rfl

/-- Witness for C1: a concrete failed delivery from the initial state
leaves the clock at `none`. -/
theorem C1_clock_update_on_success_witness :
    (send_voltage_spike_alert initAlertState 10 false 250 "A" "HIGH" []).1.delivery_attempted
      = true ∧
    (send_voltage_spike_alert initAlertState 10 false 250 "A" "HIGH" []).2.last_alert_time =
      if false then some 10 else initAlertState.last_alert_time :=
  ⟨rfl, C1_clock_update_on_success initAlertState 10 false 250 "A" "HIGH" [] rfl⟩

/-- C2 counterexample: two sends at times 0 and 1 — one second apart,
inside the 300 s window — both perform a delivery attempt, because the
first delivery failed and so did not set `last_alert_time`; "at most one
outbound delivery attempt per cooldown window" is false. -/
theorem C2_attempt_count_counterexample :
    (send_voltage_spike_alert initAlertState 0 false 250 "A" "HIGH" []).1.delivery_attempted
      = true ∧
    (send_voltage_spike_alert
        (send_voltage_spike_alert initAlertState 0 false 250 "A" "HIGH" []).2
        1 false 250 "A" "HIGH" []).1.delivery_attempted = true ∧
    (1 : ℚ) - 0 < initAlertState.alert_cooldown := by
  refine ⟨rfl, rfl, by norm_num [initAlertState]⟩

/-- C2 (amended): while `last_attempt_time` is set and
`now − last_attempt_time < cooldown_duration`, `send` returns the
suppressed result, builds no message, performs no delivery attempt and
leaves the state unchanged; consequently at most one *successful*
delivery occurs per cooldown window — after a non-suppressed send whose
delivery succeeds, no further delivery attempt happens within the window
(failed deliveries do not arm the window). -/
theorem C2_cooldown_suppression (st : AlertState) (now now2 t : ℚ)
    (d d2 : Bool) (v v2 : ℚ) (a s a2 s2 : String)
    (ai ai2 : List (String × String)) :
    (st.last_alert_time = some t → now - t < st.alert_cooldown →
      send_voltage_spike_alert st now d v a s ai =
        ({ result := false, message := none, delivery_attempted := false }, st)) ∧
    ((send_voltage_spike_alert st now true v a s ai).1.delivery_attempted = true →
      now2 - now < st.alert_cooldown →
      (send_voltage_spike_alert
          (send_voltage_spike_alert st now true v a s ai).2
          now2 d2 v2 a2 s2 ai2).1.delivery_attempted = false) := by
  constructor
  · intro hl hc
    exact send_suppressed st now d v a s ai t hl hc
  · intro hatt hlt
    rw [send_attempted_cases st now true v a s ai hatt, send_body_spec]
    simp only [if_pos]
    rw [send_suppressed { st with last_alert_time := some now } now2 d2 v2 a2 s2
      ai2 now rfl hlt]

/-- Witness for C2: a send 100 s after a (successful) attempt at time 0 is
suppressed, and a successful send at time 0 from the initial state blocks
the attempt at time 100. -/
theorem C2_cooldown_suppression_witness :
    (send_voltage_spike_alert ⟨some 0, 300⟩ 100 false 250 "A" "HIGH" [] =
      ({ result := false, message := none, delivery_attempted := false },
        ⟨some 0, 300⟩)) ∧
    (send_voltage_spike_alert
        (send_voltage_spike_alert initAlertState 0 true 250 "A" "HIGH" []).2
        100 false 250 "A" "HIGH" []).1.delivery_attempted = false :=
  ⟨(C2_cooldown_suppression ⟨some 0, 300⟩ 100 100 0 false false 250 250
      "A" "HIGH" "A" "HIGH" [] []).1 rfl (by norm_num),
   (C2_cooldown_suppression initAlertState 0 100 0 true false 250 250
      "A" "HIGH" "A" "HIGH" [] []).2 rfl (by norm_num [initAlertState])⟩

/-- C7 counterexample: the unrecognized severity `"BOGUS"` is processed
with HIGH's display motif, but the rendered message's severity line shows
`"BOGUS"` verbatim, not the default `"HIGH"`. -/
theorem C7_severity_line_counterexample :
    ((send_voltage_spike_alert initAlertState 0 true 250 "A" "BOGUS" []).1.message.map
        (fun m => m.severity)) = some "BOGUS" ∧
    ((send_voltage_spike_alert initAlertState 0 true 250 "A" "BOGUS" []).1.message.map
        (fun m => m.severity)) ≠ some "HIGH" ∧
    ((send_voltage_spike_alert initAlertState 0 true 250 "A" "BOGUS" []).1.message.map
        (fun m => m.emoji)) = some "🚨" := by
  refine ⟨rfl, by decide, rfl⟩

/-- C7 (amended): an absent severity defaults to the argument value
`"HIGH"`; a severity outside {LOW, MEDIUM, HIGH, CRITICAL} is never
rejected — the event is processed with HIGH's display motif (emoji 🚨,
color 🔴) — but the rendered message's severity line carries the supplied
value verbatim rather than the default. -/
theorem C7_unrecognized_severity_default (st : AlertState) (now : ℚ)
    (d : Bool) (v : ℚ) (a sev : String) (ai : List (String × String))
    (hbad : severity_config.lookup sev = none)
    (hatt : (send_voltage_spike_alert st now d v a sev ai).1.delivery_attempted = true) :
    (send_voltage_spike_alert st now d v a sev ai).1.message =
      some { emoji := "🚨", color := "🔴", severity := sev, voltage := v,
             area := a, time := now, additional_info := ai } ∧
    send_voltage_spike_alert st now d v a =
      send_voltage_spike_alert st now d v a "HIGH" := by
  refine ⟨?_, rfl⟩
  rw [send_attempted_cases st now d v a sev ai hatt, send_body_spec]
  simp [severity_config_get, hbad]

/-- Witness for C7: the concrete unrecognized severity `"BOGUS"`. -/
theorem C7_unrecognized_severity_default_witness :
    (send_voltage_spike_alert initAlertState 0 true 250 "A" "BOGUS" []).1.message =
      some { emoji := "🚨", color := "🔴", severity := "BOGUS", voltage := 250,
             area := "A", time := 0, additional_info := [] } ∧
    send_voltage_spike_alert initAlertState 0 true 250 "A" =
      send_voltage_spike_alert initAlertState 0 true 250 "A" "HIGH" :=
  C7_unrecognized_severity_default initAlertState 0 true 250 "A" "BOGUS" []
    (by decide) rfl

/-- C3: with an empty backing sequence, the voltage-data read returns a
synthetic reading — an `.ok` value, never an error and never an absent
value — whose timestamp is the wall clock formatted `HH:MM:SS`, whose
voltage `220 + uniform(-10, 10)` lies in `[210, 230]` and whose current
`uniform(0, 0.5)` lies in `[0, 1/2]`, and the feed state (in particular
the cursor) is untouched. -/
theorem C3_empty_feed_fallback (st : FeedState) (h m s : ℕ) (r1 r2 : ℚ)
    (hempty : st.csv_data = []) (hr1l : -10 ≤ r1) (hr1u : r1 ≤ 10)
    (hr2l : 0 ≤ r2) (hr2u : r2 ≤ 1 / 2) :
    ∃ vp : VoltagePoint,
      get_voltage_data st (strftimeHMS h m s) r1 r2 = .ok (vp, st) ∧
      vp.success = true ∧
      vp.timestamp = strftimeHMS h m s ∧
      210 ≤ vp.voltage ∧ vp.voltage ≤ 230 ∧
      0 ≤ vp.current ∧ vp.current ≤ 1 / 2 := by
  refine ⟨{ timestamp := strftimeHMS h m s, voltage := 220 + r1, current := r2,
            success := true },
    ?_, rfl, rfl, by show (210 : ℚ) ≤ 220 + r1; linarith,
    by show (220 : ℚ) + r1 ≤ 230; linarith, hr2l, hr2u⟩
  have he : st.csv_data.isEmpty = true := by simp [hempty]
  have hstep : get_next_data_point st = Except.ok (none, st) := by
    unfold get_next_data_point
    rw [if_pos he]
  unfold get_voltage_data
  rw [hstep]
  rfl

/-- Witness for C3: a concrete empty feed with cursor 7, clock 01:02:03
and draws `r1 = 5`, `r2 = 1/4`. -/
theorem C3_empty_feed_fallback_witness :
    ∃ vp : VoltagePoint,
      get_voltage_data ⟨[], 7⟩ (strftimeHMS 1 2 3) 5 (1 / 4) = .ok (vp, ⟨[], 7⟩) ∧
      vp.success = true ∧
      vp.timestamp = strftimeHMS 1 2 3 ∧
      210 ≤ vp.voltage ∧ vp.voltage ≤ 230 ∧
      0 ≤ vp.current ∧ vp.current ≤ 1 / 2 :=
  C3_empty_feed_fallback ⟨[], 7⟩ 1 2 3 5 (1 / 4) rfl (by norm_num) (by norm_num)
    (by norm_num) (by norm_num)

/-- C4: the webhook-style entry point classifies CRITICAL iff `v ≥ 300`,
HIGH iff `280 ≤ v < 300`, MEDIUM iff `260 ≤ v < 280` and LOW otherwise
(inclusive lower bounds), and it invokes the notifier's send iff
`v > 234`; in particular `v = 234` triggers no alert attempt and
`v = 234.1` does. -/
theorem C4_webhook_classification (st : AlertState) (now : ℚ) (d : Bool)
    (v : ℚ) (area ts : String) :
    (classify_severity v = "CRITICAL" ↔ 300 ≤ v) ∧
    (classify_severity v = "HIGH" ↔ 280 ≤ v ∧ v < 300) ∧
    (classify_severity v = "MEDIUM" ↔ 260 ≤ v ∧ v < 280) ∧
    (classify_severity v = "LOW" ↔ v < 260) ∧
    ((handle_voltage_data st now d v area ts).1 = true ↔ 234 < v) ∧
    (handle_voltage_data st now d 234 area ts).1 = false ∧
    (handle_voltage_data st now d (2341 / 10) area ts).1 = true := by
  refine ⟨?_, ?_, ?_, ?_, ?_, ?_, ?_⟩
  · constructor
    · intro hc
      unfold classify_severity at hc
      split_ifs at hc with h1 h2 h3
      · exact h1
      · exact absurd hc (by decide)
      · exact absurd hc (by decide)
      · exact absurd hc (by decide)
    · intro hv
      unfold classify_severity
      rw [if_pos hv]
  · constructor
    · intro hc
      unfold classify_severity at hc
      split_ifs at hc with h1 h2 h3
      · exact absurd hc (by decide)
      · exact ⟨h2, by linarith⟩
      · exact absurd hc (by decide)
      · exact absurd hc (by decide)
    · rintro ⟨hl, hu⟩
      unfold classify_severity
      rw [if_neg (by linarith), if_pos hl]
  · constructor
    · intro hc
      unfold classify_severity at hc
      split_ifs at hc with h1 h2 h3
      · exact absurd hc (by decide)
      · exact absurd hc (by decide)
      · exact ⟨h3, by linarith⟩
      · exact absurd hc (by decide)
    · rintro ⟨hl, hu⟩
      unfold classify_severity
      rw [if_neg (by linarith), if_neg (by linarith), if_pos hl]
  · constructor
    · intro hc
      unfold classify_severity at hc
      split_ifs at hc with h1 h2 h3
      · exact absurd hc (by decide)
      · exact absurd hc (by decide)
      · exact absurd hc (by decide)
      · linarith
    · intro hv
      unfold classify_severity
      rw [if_neg (by linarith), if_neg (by linarith), if_neg (by linarith)]
  · unfold handle_voltage_data
    split_ifs with h <;> simp [h]
  · unfold handle_voltage_data
    rw [if_neg (by norm_num)]
  · unfold handle_voltage_data
    rw [if_pos (by norm_num)]

/-- A non-empty feed under the cursor invariant: one call returns the
reading at the cursor and advances the cursor modulo the length. -/
theorem get_next_data_point_spec (data : List Reading) (c : ℕ)
    (h : c < data.length) :
    get_next_data_point ⟨data, c⟩ =
      Except.ok (some (data.getD c ⟨"", 0, 0⟩),
        ⟨data, (c + 1) % data.length⟩) := by
  have hne : data.isEmpty = false := by
    cases data
    · simp at h
    · rfl
  have hg : data[c]? = some data[c] := List.getElem?_eq_getElem h
  have hgd : data.getD c ⟨"", 0, 0⟩ = data[c] := List.getD_eq_getElem data ⟨"", 0, 0⟩ h
  unfold get_next_data_point
  simp [hne, hg, hgd]

/-- Under the invariant, `k` calls advance the cursor to `(c + k) % L`
with no bound error. -/
theorem feedStateAfter_spec (data : List Reading) (k c : ℕ)
    (h : c < data.length) :
    feedStateAfter k ⟨data, c⟩ = Except.ok ⟨data, (c + k) % data.length⟩ := by
  have hL : 0 < data.length := lt_of_le_of_lt (Nat.zero_le c) h
  induction k generalizing c with
  | zero =>
      unfold feedStateAfter
      rw [Nat.add_zero, Nat.mod_eq_of_lt h]
  | succ k ih =>
      unfold feedStateAfter
      rw [get_next_data_point_spec data c h]
      have h1 : (c + 1) % data.length < data.length := Nat.mod_lt _ hL
      simp only [ih ((c + 1) % data.length) h1]
      congr 2
      rw [Nat.mod_add_mod]
      congr 1
      omega

/-- Under the invariant, the `n`-th call (1-indexed) returns the reading
at position `(c + (n - 1)) % L`. -/
theorem readingAtCall_spec (data : List Reading) (n c : ℕ)
    (h : c < data.length) :
    readingAtCall n ⟨data, c⟩ =
      Except.ok (some (data.getD ((c + (n - 1)) % data.length) ⟨"", 0, 0⟩)) := by
  have hL : 0 < data.length := lt_of_le_of_lt (Nat.zero_le c) h
  have h2 : (c + (n - 1)) % data.length < data.length := Nat.mod_lt _ hL
  unfold readingAtCall
  rw [feedStateAfter_spec data (n - 1) c h]
  simp only [get_next_data_point_spec data ((c + (n - 1)) % data.length) h2]

/-- C6: on a non-empty feed whose cursor satisfies the invariant,
`next()` returns the reading at the cursor and advances the cursor by one
modulo the length — the new cursor stays in `[0, L)` and no bound error is
raised (the result is `.ok`) — and the 1st and the `(L+1)`-th of a run of
successive calls return the same reading. -/
theorem C6_cyclic_wraparound (st : FeedState) (hne : st.csv_data ≠ [])
    (h : st.current_data_index < st.csv_data.length) :
    get_next_data_point st =
      Except.ok (some (st.csv_data.getD st.current_data_index ⟨"", 0, 0⟩),
        ⟨st.csv_data, (st.current_data_index + 1) % st.csv_data.length⟩) ∧
    (st.current_data_index + 1) % st.csv_data.length < st.csv_data.length ∧
    readingAtCall 1 st =
      Except.ok (some (st.csv_data.getD st.current_data_index ⟨"", 0, 0⟩)) ∧
    readingAtCall (st.csv_data.length + 1) st = readingAtCall 1 st := by
  obtain ⟨data, c⟩ := st
  simp only at hne h ⊢
  have hL : 0 < data.length := lt_of_le_of_lt (Nat.zero_le c) h
  refine ⟨get_next_data_point_spec data c h, Nat.mod_lt _ hL, ?_, ?_⟩
  · rw [readingAtCall_spec data 1 c h]
    congr 2
    simp [Nat.mod_eq_of_lt h]
  · rw [readingAtCall_spec data (data.length + 1) c h,
      readingAtCall_spec data 1 c h]
    congr 3
    simp [Nat.add_mod_right, Nat.mod_eq_of_lt h]

/-- Witness for C6: a concrete two-element feed with cursor 0. -/
theorem C6_cyclic_wraparound_witness :
    ((⟨[⟨"a", 1, 320⟩, ⟨"b", 2, 420⟩], 0⟩ : FeedState).csv_data ≠ [] ∧
      (⟨[⟨"a", 1, 320⟩, ⟨"b", 2, 420⟩], 0⟩ : FeedState).current_data_index <
        (⟨[⟨"a", 1, 320⟩, ⟨"b", 2, 420⟩], 0⟩ : FeedState).csv_data.length) ∧
    (get_next_data_point ⟨[⟨"a", 1, 320⟩, ⟨"b", 2, 420⟩], 0⟩ =
      Except.ok (some ([⟨"a", 1, 320⟩, ⟨"b", 2, 420⟩].getD 0 ⟨"", 0, 0⟩),
        ⟨[⟨"a", 1, 320⟩, ⟨"b", 2, 420⟩], (0 + 1) % 2⟩) ∧
    (0 + 1) % 2 < 2 ∧
    readingAtCall 1 ⟨[⟨"a", 1, 320⟩, ⟨"b", 2, 420⟩], 0⟩ =
      Except.ok (some ([⟨"a", 1, 320⟩, ⟨"b", 2, 420⟩].getD 0 ⟨"", 0, 0⟩)) ∧
    readingAtCall (2 + 1) ⟨[⟨"a", 1, 320⟩, ⟨"b", 2, 420⟩], 0⟩ =
      readingAtCall 1 ⟨[⟨"a", 1, 320⟩, ⟨"b", 2, 420⟩], 0⟩) :=
  ⟨⟨by decide, by decide⟩,
    C6_cyclic_wraparound ⟨[⟨"a", 1, 320⟩, ⟨"b", 2, 420⟩], 0⟩ (by decide) (by decide)⟩
